import Mathlib

/-!
Shallow embedding of the BandSplitRNN sequence-modelling modules
(`src/model/modules/bandsequence.py` and `src/model/modules/se_layer.py`)
and proofs about them.

Tensors are modelled as functions over `Fin`-typed indices; a rank-4
tensor of shape `[B, K, T, N]` is `Fin B → Fin K → Fin T → Fin N → α`.
PyTorch `view`/`permute`/`transpose` calls become the corresponding index
arithmetic.  Real-valued computation (group normalization, the sigmoid of
the squeeze-and-excite gate) is modelled over `ℝ`; the recurrent cell
itself (`nn.LSTM` and friends, part of the torch runtime library, not of
this repository) is modelled as an opaque function parameter of the right
shape, as are the learned parameters of every submodule.
-/

/-!
Value semantics: real-valued entries.  Shape semantics: shapes are lists of
axis sizes, and every operation of the forward passes is in addition
mirrored as a partial function on shapes that fails (`none`) exactly where
PyTorch would raise a runtime shape error.  Construction semantics:
`RNNModule.__init__` looks its recurrent class up with
`getattr(nn, rnn_type)` and `SELayer1D.__init__` builds its two
convolutions with integer floor division and no divisibility check; the
errors each constructor can raise are modelled with `Except`.
-/

/-- Rank-3 tensor of shape `[R, C, L]` with entries in `α`. -/
def T3 (α : Type) (R C L : ℕ) : Type := Fin R → Fin C → Fin L → α

/-- Rank-4 tensor of shape `[B, K, T, N]` with entries in `α`. -/
def T4 (α : Type) (B K T N : ℕ) : Type := Fin B → Fin K → Fin T → Fin N → α

/-- From an index into a folded axis of size `a * b`, the second factor is
positive (otherwise the folded axis is empty). -/
def snd_pos {a b : ℕ} (r : Fin (a * b)) : 0 < b := by
  rcases Nat.eq_zero_or_pos b with h | h
  · exact absurd r.isLt (by simp [h])
  · exact h

/-- First component of unflattening row `r` of a folded `a * b` axis
(PyTorch `view`: row-major order, so `r = i * b + j` maps to `i = r / b`). -/
def fdiv {a b : ℕ} (r : Fin (a * b)) : Fin a :=
  ⟨r.val / b, (Nat.div_lt_iff_lt_mul (snd_pos r)).mpr r.isLt⟩

/-- Second component of unflattening row `r` of a folded `a * b` axis. -/
def fmod {a b : ℕ} (r : Fin (a * b)) : Fin b :=
  ⟨r.val % b, Nat.mod_lt _ (snd_pos r)⟩

/-- Flattening a pair of indices into a folded `a * b` axis
(row-major, matching PyTorch `view`). -/
def fpair {a b : ℕ} (i : Fin a) (j : Fin b) : Fin (a * b) :=
  ⟨i.val * b + j.val, by
    calc i.val * b + j.val < i.val * b + b := Nat.add_lt_add_left j.isLt _
    _ = (i.val + 1) * b := (Nat.succ_mul _ _).symm
    _ ≤ a * b := Nat.mul_le_mul_right _ (Nat.succ_le_of_lt i.isLt)⟩

/-- `x.permute(0, 2, 1, 3)`: swap axes 1 and 2 of a rank-4 tensor
(bandsequence.py lines 50, 111 and 117). -/
def permute12 {α : Type} {B K T N : ℕ} (x : T4 α B K T N) : T4 α B T K N :=
  fun b t k n => x b k t n

/-- `x.view(B * K, T, N)` on a rank-4 tensor (bandsequence.py lines 40 and 98). -/
def view4to3 {α : Type} {B K T N : ℕ} (x : T4 α B K T N) : T3 α (B * K) T N :=
  fun r t n => x (fdiv r) (fmod r) t n

/-- The type of an `RNNModule` used as a function, as `BandSequenceModelModule`
uses its submodules: for any spatial sizes, a rank-4 tensor in, the rank-4
tensor with axes 1 and 2 swapped out (bandsequence.py line 50 does the swap). -/
def BlockFun (α : Type) (N : ℕ) : Type :=
  ∀ (B K T : ℕ), T4 α B K T N → T4 α B T K N

/-- The type of an `SELayer1D` used as a function: for any row count and
length, a rank-3 tensor with channel width `N` in, same shape out. -/
def GateFun (α : Type) (N : ℕ) : Type :=
  ∀ (R L : ℕ), T3 α R N L → T3 α R N L

/-- The squeeze-and-excite call pattern of `BandSequenceModelModule.forward`
(bandsequence.py lines 97-103): fold axes 0 and 1 of `[A, C, D, N]` into rows
via `view(A*C, D, N)`, move the feature axis to the channel position via
`permute(0, 2, 1)` giving `[A*C, N, D]`, apply the gate, and undo both steps. -/
def gateFold {α : Type} {N : ℕ} (g : GateFun α N) {A C D : ℕ}
    (x : T4 α A C D N) : T4 α A C D N :=
  fun a c d n => g (A * C) D (fun r n' d' => x (fdiv r) (fmod r) d' n') (fpair a c) n d

/-- One iteration of the loop in `BandSequenceModelModule.forward`
(bandsequence.py lines 93-117):
line 94 applies `self.bsrnn[i]`, an `nn.Sequential` of the time-orientation
block and the band-orientation block;
lines 97-103 apply `self.se_layers[2*i]` through the `[B*K, N, T]`
rearrangement and store the result in `x_`;
lines 111-116 overwrite `x_`, rebuilding it from the ungated `x` through the
`[B*T, N, K]` rearrangement, and apply `self.se_layers[2*i+1]`;
line 117 permutes the result back to `[B, K, T, N]` and assigns it to `x`. -/
def dualAxisLayer {α : Type} {N : ℕ} (rt rk : BlockFun α N) (g0 g1 : GateFun α N)
    {B K T : ℕ} (x : T4 α B K T N) : T4 α B K T N :=
  let y := rk B T K (rt B K T x)
  let x_ := gateFold g0 y
  let x_ := permute12 (gateFold g1 (permute12 y))
  x_

/-- The layer loop of `BandSequenceModelModule.forward`, with the layer index
`i` and the remaining-layer count carried explicitly (`se_idx` is `2*i`). -/
def dualAxisGo {α : Type} {N : ℕ} (rt rk : ℕ → BlockFun α N) (g : ℕ → GateFun α N)
    {B K T : ℕ} : ℕ → ℕ → T4 α B K T N → T4 α B K T N
  | _, 0, x => x
  | i, n + 1, x =>
      dualAxisGo rt rk g (i + 1) n (dualAxisLayer (rt i) (rk i) (g (2 * i)) (g (2 * i + 1)) x)

/-- `BandSequenceModelModule.forward` (bandsequence.py lines 87-119) with the
submodules abstracted as functions: `rt i` and `rk i` are the two `RNNModule`s
of `self.bsrnn[i]` and `g j` is `self.se_layers[j]`. -/
def dualAxisForward {α : Type} {N : ℕ} (rt rk : ℕ → BlockFun α N) (g : ℕ → GateFun α N)
    (L : ℕ) {B K T : ℕ} (x : T4 α B K T N) : T4 α B K T N :=
  dualAxisGo rt rk g 0 L x

/-- Modelled from the spec: one layer of the stack as claim C1 describes it —
the time-orientation block, then gate `2*i` on the `[B, T, K, N]` result
(band-axis statistics), then the band-orientation block, then gate `2*i+1` on
the `[B, K, T, N]` result (time-axis statistics), each gate consuming the
output of the block immediately preceding it. -/
def claimedLayer {α : Type} {N : ℕ} (rt rk : BlockFun α N) (g0 g1 : GateFun α N)
    {B K T : ℕ} (x : T4 α B K T N) : T4 α B K T N :=
  gateFold g1 (rk B T K (gateFold g0 (rt B K T x)))

def claimedGo {α : Type} {N : ℕ} (rt rk : ℕ → BlockFun α N) (g : ℕ → GateFun α N)
    {B K T : ℕ} : ℕ → ℕ → T4 α B K T N → T4 α B K T N
  | _, 0, x => x
  | i, n + 1, x =>
      claimedGo rt rk g (i + 1) n (claimedLayer (rt i) (rk i) (g (2 * i)) (g (2 * i + 1)) x)

/-- Modelled from the spec: the stack forward pass as claim C1 describes it. -/
def claimedForward {α : Type} {N : ℕ} (rt rk : ℕ → BlockFun α N) (g : ℕ → GateFun α N)
    (L : ℕ) {B K T : ℕ} (x : T4 α B K T N) : T4 α B K T N :=
  claimedGo rt rk g 0 L x

/-- One layer of the stack with the even-indexed gate removed entirely
(bandsequence.py lines 93-117 without lines 97-103). -/
def noEvenLayer {α : Type} {N : ℕ} (rt rk : BlockFun α N) (g1 : GateFun α N)
    {B K T : ℕ} (x : T4 α B K T N) : T4 α B K T N :=
  permute12 (gateFold g1 (permute12 (rk B T K (rt B K T x))))

def noEvenGo {α : Type} {N : ℕ} (rt rk : ℕ → BlockFun α N) (h : ℕ → GateFun α N)
    {B K T : ℕ} : ℕ → ℕ → T4 α B K T N → T4 α B K T N
  | _, 0, x => x
  | i, n + 1, x => noEvenGo rt rk h (i + 1) n (noEvenLayer (rt i) (rk i) (h i) x)

/-- The stack forward pass of an otherwise identical stack whose even-indexed
gates have been removed entirely: one gate `h i` per layer, applied at the
second (odd) gating site. -/
def noEvenForward {α : Type} {N : ℕ} (rt rk : ℕ → BlockFun α N) (h : ℕ → GateFun α N)
    (L : ℕ) {B K T : ℕ} (x : T4 α B K T N) : T4 α B K T N :=
  noEvenGo rt rk h 0 L x

/-- `torch.nn.GroupNorm(G, C)` applied to a rank-3 input `[R, C, L]`
(constructed at bandsequence.py line 19, applied at lines 42-44): channels
are split into `G` groups of `C / G` consecutive channels; for every sample
`r` and every group, the mean and the biased variance are taken over that
group's channels and all `L` positions of that sample only; each entry is
normalized with its group's statistics and `eps` inside the square root, then
scaled and shifted by the learned per-channel affine parameters. -/
noncomputable def groupNorm (G : ℕ) {R C L : ℕ} (w bs : Fin C → ℝ) (eps : ℝ)
    (x : T3 ℝ R C L) : T3 ℝ R C L :=
  fun r c l =>
    let m := C / G
    let cnt : ℝ := (m * L : ℕ)
    let mean : ℝ :=
      (∑ c' : Fin C, if c'.val / m = c.val / m then ∑ l' : Fin L, x r c' l' else 0) / cnt
    let var : ℝ :=
      (∑ c' : Fin C,
        if c'.val / m = c.val / m then ∑ l' : Fin L, (x r c' l' - mean) ^ 2 else 0) / cnt
    w c * ((x r c l - mean) / Real.sqrt (var + eps)) + bs c

/-- Modelled from the spec: the normalization claim C7 attributes to the code —
for each channel, mean and variance taken jointly over all `R` rows (the
folded `B*K` group axis) and all `L` positions, followed by the per-channel
affine parameters. -/
noncomputable def groupNormJoint (G : ℕ) {R C L : ℕ} (w bs : Fin C → ℝ) (eps : ℝ)
    (x : T3 ℝ R C L) : T3 ℝ R C L :=
  fun r c l =>
    let m := C / G
    let cnt : ℝ := (R * (m * L) : ℕ)
    let mean : ℝ :=
      (∑ r' : Fin R, ∑ c' : Fin C,
        if c'.val / m = c.val / m then ∑ l' : Fin L, x r' c' l' else 0) / cnt
    let var : ℝ :=
      (∑ r' : Fin R, ∑ c' : Fin C,
        if c'.val / m = c.val / m then ∑ l' : Fin L, (x r' c' l' - mean) ^ 2 else 0) / cnt
    w c * ((x r c l - mean) / Real.sqrt (var + eps)) + bs c

/-- Output width of the recurrent transform: `hidden_dim_size * 2 if
bidirectional else hidden_dim_size` (bandsequence.py line 24). -/
def dirMul (bi : Bool) (H : ℕ) : ℕ := if bi then 2 * H else H

/-- Parameters of one `RNNModule` (bandsequence.py lines 11-26): the
`GroupNorm(N, N)` affine parameters and `eps`, the recurrent transform
itself (a torch runtime class selected by `getattr`; modelled as an opaque
shape-polymorphic function `[rows, T, N] → [rows, T, dirMul bi H]`), and the
`Linear(dirMul bi H, N)` weight and bias. -/
structure RNNModule (N H : ℕ) where
  bidirectional : Bool
  gnW : Fin N → ℝ
  gnB : Fin N → ℝ
  eps : ℝ
  run : ∀ (R T : ℕ), T3 ℝ R T N → T3 ℝ R T (dirMul bidirectional H)
  fcW : Fin N → Fin (dirMul bidirectional H) → ℝ
  fcB : Fin N → ℝ

/-- Lines 42-46 of bandsequence.py, on the already-folded `[rows, T, N]`
tensor: transpose the last two axes, apply the group normalization, transpose
back, run the recurrent transform, and apply the linear projection. -/
noncomputable def rnnPipeline {N H : ℕ} (p : RNNModule N H) {R T : ℕ}
    (o : T3 ℝ R T N) : T3 ℝ R T N :=
  let o1 : T3 ℝ R N T := fun r n t => o r t n
  let o2 := groupNorm N p.gnW p.gnB p.eps o1
  let o3 : T3 ℝ R T N := fun r t n => o2 r n t
  let h := p.run R T o3
  fun r t n => (∑ j, p.fcW n j * h r t j) + p.fcB n

/-- `RNNModule.forward` up to but not including the final axis swap
(bandsequence.py lines 38-48): fold `[B, K]` into rows, run the pipeline,
unfold, and add the original (pre-normalization) input. -/
noncomputable def RNNModule.pre {N H : ℕ} (p : RNNModule N H) {B K T : ℕ}
    (x : T4 ℝ B K T N) : T4 ℝ B K T N :=
  fun b k t n => rnnPipeline p (view4to3 x) (fpair b k) t n + x b k t n

/-- `RNNModule.forward` (bandsequence.py lines 28-51): the residual result,
then `permute(0, 2, 1, 3)` swapping axes 1 and 2 (line 50). -/
noncomputable def RNNModule.forward {N H : ℕ} (p : RNNModule N H) {B K T : ℕ}
    (x : T4 ℝ B K T N) : T4 ℝ B T K N :=
  permute12 (RNNModule.pre p x)

/-- An `RNNModule` whose recurrent transform and linear projection are both
the zero map (claim C9's hypothetical replacement). -/
noncomputable def zeroRNNModule (N H : ℕ) (bi : Bool) (gw gb : Fin N → ℝ)
    (eps : ℝ) : RNNModule N H :=
  { bidirectional := bi
    gnW := gw
    gnB := gb
    eps := eps
    run := fun _ _ _ => fun _ _ _ => 0
    fcW := fun _ _ => 0
    fcB := fun _ => 0 }

/-- The logistic sigmoid used by `nn.Sigmoid` (se_layer.py lines 11 and 19). -/
noncomputable def sigmoid (z : ℝ) : ℝ := 1 / (1 + Real.exp (-z))

/-- Parameters of one `SELayer1D` (se_layer.py lines 6-11): the two
bias-free kernel-size-1 `Conv1d` weights, `channel → channel // reduction`
and `channel // reduction → channel`.  The hidden width is kept abstract
here; the constructor model below fixes it to `channel / reduction`. -/
structure SELayer1D (C : ℕ) where
  hidden : ℕ
  w1 : Fin hidden → Fin C → ℝ
  w2 : Fin C → Fin hidden → ℝ

/-- `self.avg_pool(x)` (se_layer.py line 15): mean over the length axis,
for each row and channel. -/
noncomputable def seSqueeze {C R L : ℕ} (x : T3 ℝ R C L) (r : Fin R) (c : Fin C) : ℝ :=
  (∑ l, x r c l) / L

/-- The pre-sigmoid gate value (se_layer.py lines 15-18): average pool,
first convolution, rectified linear unit, second convolution, at row `r`
and output channel `c`. -/
noncomputable def sePre {C : ℕ} (p : SELayer1D C) {R L : ℕ} (x : T3 ℝ R C L)
    (r : Fin R) (c : Fin C) : ℝ :=
  ∑ j, p.w2 c j * max (∑ c', p.w1 j c' * seSqueeze x r c') 0

/-- The per-channel gate in `(0, 1)` (se_layer.py line 19). -/
noncomputable def seGate {C : ℕ} (p : SELayer1D C) {R L : ℕ} (x : T3 ℝ R C L)
    (r : Fin R) (c : Fin C) : ℝ :=
  sigmoid (sePre p x r c)

/-- `SELayer1D.forward` (se_layer.py lines 13-20): the input multiplied
elementwise by the broadcast per-channel gate. -/
noncomputable def SELayer1D.forward {C : ℕ} (p : SELayer1D C) {R L : ℕ}
    (x : T3 ℝ R C L) : T3 ℝ R C L :=
  fun r c l => x r c l * seGate p x r c

/-- An `SELayer1D` whose two projection weight sets are zero (claims C8 and
C10 use it as a concrete parameter setting). -/
noncomputable def zeroSELayer (C hid : ℕ) : SELayer1D C :=
  { hidden := hid, w1 := fun _ _ => 0, w2 := fun _ _ => 0 }

/-- `BandSequenceModelModule.forward` with the concrete submodules plugged
into the orchestration: `rnnT i` and `rnnK i` are the parameters of the two
`RNNModule`s of `self.bsrnn[i]`, `se j` the parameters of
`self.se_layers[j]`, and `L` is `num_layers`. -/
noncomputable def BandSequenceModelModule.forward {N H : ℕ}
    (rnnT rnnK : ℕ → RNNModule N H) (se : ℕ → SELayer1D N) (L : ℕ)
    {B K T : ℕ} (x : T4 ℝ B K T N) : T4 ℝ B K T N :=
  dualAxisForward
    (fun i (B' K' T' : ℕ) (y : T4 ℝ B' K' T' N) => RNNModule.forward (rnnT i) y)
    (fun i (B' K' T' : ℕ) (y : T4 ℝ B' K' T' N) => RNNModule.forward (rnnK i) y)
    (fun j (R' L' : ℕ) (t : T3 ℝ R' N L') => SELayer1D.forward (se j) t) L x

/-- The even-gates-removed stack with the concrete submodules plugged in. -/
noncomputable def bandSequenceNoEvenForward {N H : ℕ}
    (rnnT rnnK : ℕ → RNNModule N H) (se : ℕ → SELayer1D N) (L : ℕ)
    {B K T : ℕ} (x : T4 ℝ B K T N) : T4 ℝ B K T N :=
  noEvenForward
    (fun i (B' K' T' : ℕ) (y : T4 ℝ B' K' T' N) => RNNModule.forward (rnnT i) y)
    (fun i (B' K' T' : ℕ) (y : T4 ℝ B' K' T' N) => RNNModule.forward (rnnK i) y)
    (fun j (R' L' : ℕ) (t : T3 ℝ R' N L') => SELayer1D.forward (se j) t) L x

/-- Modelled from the spec: the stack forward pass as claim C1 describes it,
with the concrete submodules plugged in. -/
noncomputable def bandSequenceClaimedForward {N H : ℕ}
    (rnnT rnnK : ℕ → RNNModule N H) (se : ℕ → SELayer1D N) (L : ℕ)
    {B K T : ℕ} (x : T4 ℝ B K T N) : T4 ℝ B K T N :=
  claimedForward
    (fun i (B' K' T' : ℕ) (y : T4 ℝ B' K' T' N) => RNNModule.forward (rnnT i) y)
    (fun i (B' K' T' : ℕ) (y : T4 ℝ B' K' T' N) => RNNModule.forward (rnnK i) y)
    (fun j (R' L' : ℕ) (t : T3 ℝ R' N L') => SELayer1D.forward (se j) t) L x

/-- `transpose(-1, -2)` / `permute(0, 2, 1)` on a rank-3 shape
(bandsequence.py lines 43-44, 98, 103, 113, 116). -/
def swapLast2Shape : List ℕ → Option (List ℕ)
  | [a, b, c] => some [a, c, b]
  | _ => none

/-- `permute(0, 2, 1, 3)` on a rank-4 shape (bandsequence.py lines 50, 111, 117). -/
def permute0213Shape : List ℕ → Option (List ℕ)
  | [a, b, c, d] => some [a, c, b, d]
  | _ => none

/-- `nn.GroupNorm(C, C)` applied to a rank-3 input: shape preserved, but the
channel axis (axis 1) must equal the configured channel count. -/
def groupNormShape (C : ℕ) : List ℕ → Option (List ℕ)
  | [r, c, l] => if c = C then some [r, c, l] else none
  | _ => none

/-- The recurrent transform on a `batch_first` rank-3 input `[rows, T, N]`:
the feature axis must equal the configured input width; the output feature
axis is `dirMul bi H` (bandsequence.py lines 20-22, 45). -/
def rnnRunShape (N hout : ℕ) : List ℕ → Option (List ℕ)
  | [r, t, n] => if n = N then some [r, t, hout] else none
  | _ => none

/-- `nn.Linear(inF, outF)` on a rank-3 input: the last axis must equal the
configured input width (bandsequence.py lines 23-26, 46). -/
def linearShape (inF outF : ℕ) : List ℕ → Option (List ℕ)
  | [r, t, j] => if j = inF then some [r, t, outF] else none
  | _ => none

/-- `SELayer1D.forward` on a rank-3 input `[rows, C, length]`: the channel
axis must equal the configured channel count; the shape is preserved
(pool to `[rows, C, 1]`, two kernel-size-1 convolutions back to `C`
channels, broadcast multiply with the input). -/
def seLayerShape (C : ℕ) : List ℕ → Option (List ℕ)
  | [r, c, l] => if c = C then some [r, c, l] else none
  | _ => none

/-- Shape behaviour of `RNNModule.forward` (bandsequence.py lines 28-51)
for a module configured with width `N`, hidden width `H` and bidirectional
flag `bi`: rank-4 input required, folded, normalized, run through the
recurrence and the projection, unfolded, residual-added, and permuted. -/
def rnnModuleShape (N H : ℕ) (bi : Bool) : List ℕ → Option (List ℕ)
  | [b, k, t, n] => do
      let s1 := [b * k, t, n]
      let s2 ← swapLast2Shape s1
      let s3 ← groupNormShape N s2
      let s4 ← swapLast2Shape s3
      let s5 ← rnnRunShape N (dirMul bi H) s4
      let s6 ← linearShape (dirMul bi H) N s5
      let s7 ← if s6 = [b * k, t, n] then some [b, k, t, n] else none
      let s8 ← if s7 = [b, k, t, n] then some s7 else none
      permute0213Shape s8
  | _ => none

/-- Iterated application of a shape transition. -/
def iterShape (f : List ℕ → Option (List ℕ)) : ℕ → List ℕ → Option (List ℕ)
  | 0, s => some s
  | n + 1, s => (f s).bind (iterShape f n)

/-- Shape behaviour of one iteration of the `BandSequenceModelModule.forward`
loop (bandsequence.py lines 93-117): the two blocks of `self.bsrnn[i]`, then
the two squeeze-and-excite call sites with their `view`/`permute` dances. -/
def bandLayerShape (N H : ℕ) (bi : Bool) (s : List ℕ) : Option (List ℕ) := do
  let s1 ← rnnModuleShape N H bi s
  let s2 ← rnnModuleShape N H bi s1
  match s2 with
  | [b, k, t, n] => do
      let t1 := [b * k, t, n]
      let t2 ← swapLast2Shape t1
      let t3 ← seLayerShape N t2
      let t4 ← swapLast2Shape t3
      let _ ← if t4 = [b * k, t, n] then some [b, k, t, n] else none
      let u1 ← permute0213Shape s2
      let u2 := match u1 with
        | [b', t', k', n'] => some [b' * t', k', n']
        | _ => none
      let u3 ← u2
      let u4 ← swapLast2Shape u3
      let u5 ← seLayerShape N u4
      let u6 ← swapLast2Shape u5
      let u7 ← if u6 = [b * t, k, n] then some [b, t, k, n] else none
      permute0213Shape u7
  | _ => none

/-- Shape behaviour of the whole `BandSequenceModelModule.forward` for
`num_layers = L`. -/
def bandSequenceShape (N H : ℕ) (bi : Bool) (L : ℕ) (s : List ℕ) : Option (List ℕ) :=
  iterShape (bandLayerShape N H bi) L s

/-- The recurrent module classes of the torch runtime library that
`getattr(nn, rnn_type)` can name.  `torch.nn` exposes them under their
class names `LSTM`, `GRU` and `RNN` (case sensitive); any other string
makes `getattr` raise an `AttributeError`. -/
inductive RnnClass
  | lstmClass
  | gruClass
  | rnnClass
deriving DecidableEq, Repr

/-- Attribute lookup `getattr(nn, rnn_type)` restricted to the recurrent
classes (bandsequence.py line 20).  In particular `torch.nn` has no
attribute named lowercase lstm. -/
def nnLookup (s : String) : Option RnnClass :=
  if s = ("LSTM" : String) then some RnnClass.lstmClass
  else if s = ("GRU" : String) then some RnnClass.gruClass
  else if s = ("RNN" : String) then some RnnClass.rnnClass
  else none

/-- Errors raised during construction. -/
inductive InitError
  | attributeError (name : String)
deriving DecidableEq, Repr

/-- The configuration an `RNNModule` holds after construction
(bandsequence.py lines 11-26). -/
structure RNNModuleCfg where
  cls : RnnClass
  inputDim : ℕ
  hiddenDim : ℕ
  bidirectional : Bool
deriving DecidableEq, Repr

/-- `RNNModule.__init__` (bandsequence.py lines 11-26): `GroupNorm(N, N)`,
then the class found by `getattr(nn, rnn_type)` — construction fails there
with an `AttributeError` when the name is unknown — then the projection. -/
def rnnModuleInitE (N H : ℕ) (ty : String) (bi : Bool) : Except InitError RNNModuleCfg :=
  match nnLookup ty with
  | some c => Except.ok { cls := c, inputDim := N, hiddenDim := H, bidirectional := bi }
  | none => Except.error (InitError.attributeError ty)

/-- The configuration an `SELayer1D` holds after construction. -/
structure SELayer1DCfg where
  channel : ℕ
  reduction : ℕ
  hidden : ℕ
deriving DecidableEq, Repr

/-- `SELayer1D.__init__` (se_layer.py lines 6-11): the hidden width is the
integer floor division `channel // reduction`; the body contains no
divisibility or positivity check and no raise statement, so construction
always succeeds. -/
def seLayerInitE (channel reduction : ℕ) : Except InitError SELayer1DCfg :=
  Except.ok { channel := channel, reduction := reduction, hidden := channel / reduction }

/-- The configuration a `BandSequenceModelModule` holds after construction. -/
structure BandSequenceCfg where
  bsrnn : List (RNNModuleCfg × RNNModuleCfg)
  seLayers : List SELayer1DCfg
deriving DecidableEq, Repr

/-- The loop of `BandSequenceModelModule.__init__` (bandsequence.py lines
67-76): each iteration constructs the two `RNNModule`s of one layer and
appends the pair. -/
def buildBsrnn (N H : ℕ) (ty : String) (bi : Bool) :
    ℕ → Except InitError (List (RNNModuleCfg × RNNModuleCfg))
  | 0 => Except.ok []
  | n + 1 => do
      let a ← rnnModuleInitE N H ty bi
      let b ← rnnModuleInitE N H ty bi
      let rest ← buildBsrnn N H ty bi n
      Except.ok ((a, b) :: rest)

/-- The squeeze-and-excite list comprehension of
`BandSequenceModelModule.__init__` (bandsequence.py lines 81-83). -/
def buildSeLayers (N : ℕ) : ℕ → Except InitError (List SELayer1DCfg)
  | 0 => Except.ok []
  | n + 1 => do
      let s ← seLayerInitE N 16
      let rest ← buildSeLayers N n
      Except.ok (s :: rest)

/-- `BandSequenceModelModule.__init__` (bandsequence.py lines 61-83):
`num_layers` pairs of `RNNModule`s, then `2 * num_layers` `SELayer1D`s with
the default `reduction = 16`. -/
def bandSequenceInitE (N H : ℕ) (ty : String) (bi : Bool) (numLayers : ℕ) :
    Except InitError BandSequenceCfg := do
  let pairs ← buildBsrnn N H ty bi numLayers
  let ses ← buildSeLayers N (numLayers * 2)
  pure { bsrnn := pairs, seLayers := ses }

/-- Entry of value `1` in a `1 × 1 × 1` tensor, a concrete nonzero input. -/
def oneT3 : T3 ℝ 1 1 1 := fun _ _ _ => 1

/-- A zero-weight gate over one channel, a concrete parameter setting. -/
noncomputable def ceSE : SELayer1D 1 := zeroSELayer 1 1

def gnX : T3 ℝ 2 1 1 := fun r _ _ => (r.val : ℝ)

/-- A concrete recurrent block whose recurrence and projection are zero. -/
noncomputable def ceRNN : RNNModule 1 1 :=
  zeroRNNModule 1 1 true (fun _ => 1) (fun _ => 0) (1 / 100000)

def oneT4 : T4 ℝ 1 1 1 1 := fun _ _ _ _ => 1

/-- Whether a construction result is a success. -/
def exceptOk {ε β : Type} : Except ε β → Bool
  | Except.ok _ => true
  | Except.error _ => false

/-- The `RNNModule` configuration produced for the recurrent class `LSTM`. -/
def lstmCfg (N H : ℕ) (bi : Bool) : RNNModuleCfg :=
  { cls := RnnClass.lstmClass, inputDim := N, hiddenDim := H, bidirectional := bi }

/-! ## Theorems -/

theorem fdiv_fpair {a b : ℕ} (i : Fin a) (j : Fin b) : fdiv (fpair i j) = i := by
  apply Fin.ext
  show (i.val * b + j.val) / b = i.val
  rw [Nat.mul_comm i.val b, Nat.mul_add_div j.pos, Nat.div_eq_of_lt j.isLt, Nat.add_zero]

theorem fmod_fpair {a b : ℕ} (i : Fin a) (j : Fin b) : fmod (fpair i j) = j := by
  apply Fin.ext
  show (i.val * b + j.val) % b = j.val
  rw [Nat.mul_comm, Nat.mul_add_mod, Nat.mod_eq_of_lt j.isLt]

theorem permute12_permute12 {α : Type} {B K T N : ℕ} (x : T4 α B K T N) :
    permute12 (permute12 x) = x := rfl

theorem dualAxisGo_eq_noEvenGo {α : Type} {N : ℕ} (rt rk : ℕ → BlockFun α N)
    (g : ℕ → GateFun α N) {B K T : ℕ} :
    ∀ (n i : ℕ) (x : T4 α B K T N),
      dualAxisGo rt rk g i n x = noEvenGo rt rk (fun j => g (2 * j + 1)) i n x := by
  intro n
  induction n with
  | zero => intro i x; rfl
  | succ m ih =>
      intro i x
      exact ih (i + 1) (dualAxisLayer (rt i) (rk i) (g (2 * i)) (g (2 * i + 1)) x)

theorem RNNModule.pre_zero {N H : ℕ} (bi : Bool) (gw gb : Fin N → ℝ) (eps : ℝ)
    {B K T : ℕ} (x : T4 ℝ B K T N) :
    RNNModule.pre (zeroRNNModule N H bi gw gb eps) x = x := by
  funext b k t n
  simp [RNNModule.pre, rnnPipeline, zeroRNNModule]

theorem sigmoid_zero : sigmoid 0 = 1 / 2 := by
  simp [sigmoid, Real.exp_zero]
  norm_num

theorem sigmoid_pos (z : ℝ) : 0 < sigmoid z := by
  have h : (0 : ℝ) < 1 + Real.exp (-z) := by positivity
  exact div_pos one_pos h

theorem sigmoid_lt_one (z : ℝ) : sigmoid z < 1 := by
  have h : (0 : ℝ) < 1 + Real.exp (-z) := by positivity
  rw [sigmoid, div_lt_one h]
  have := Real.exp_pos (-z)
  linarith

theorem sePre_zero {C hid R L : ℕ} (x : T3 ℝ R C L) (r : Fin R) (c : Fin C) :
    sePre (zeroSELayer C hid) x r c = 0 := by
  simp [sePre, zeroSELayer]

theorem seGate_zero {C hid R L : ℕ} (x : T3 ℝ R C L) (r : Fin R) (c : Fin C) :
    seGate (zeroSELayer C hid) x r c = 1 / 2 := by
  rw [seGate, sePre_zero, sigmoid_zero]

theorem seForwardZeroWeights {C hid R L : ℕ} (x : T3 ℝ R C L) :
    SELayer1D.forward (zeroSELayer C hid) x = fun r c l => x r c l * (1 / 2) := by
  funext r c l
  rw [SELayer1D.forward, seGate_zero]

theorem rnnModuleShape_eval (N H : ℕ) (bi : Bool) (B K T : ℕ) :
    rnnModuleShape N H bi [B, K, T, N] = some [B, T, K, N] := by
  simp [rnnModuleShape, swapLast2Shape, groupNormShape, rnnRunShape, linearShape,
    permute0213Shape]

theorem bandLayerShape_eval (N H : ℕ) (bi : Bool) (B K T : ℕ) :
    bandLayerShape N H bi [B, K, T, N] = some [B, K, T, N] := by
  simp [bandLayerShape, rnnModuleShape_eval, swapLast2Shape, seLayerShape,
    permute0213Shape]

/-- Claim C2: in every iteration of the stack forward pass the result of the
even-indexed gate is discarded — the tensor fed into the second gating stage
is rebuilt from the ungated value — so for every input tensor and every
parameter setting the stack output equals the output of an otherwise
identical stack whose even-indexed gates are removed entirely. -/
theorem claim_C2_even_gates_discarded {N H : ℕ} (rnnT rnnK : ℕ → RNNModule N H)
    (se : ℕ → SELayer1D N) (L : ℕ) {B K T : ℕ} (x : T4 ℝ B K T N) :
    BandSequenceModelModule.forward rnnT rnnK se L x =
      bandSequenceNoEvenForward rnnT rnnK (fun i => se (2 * i + 1)) L x :=
  dualAxisGo_eq_noEvenGo _ _ _ L 0 x

/-- Claim C1 (amended): in each layer of the stack forward pass the
time-orientation block and the band-orientation block are applied
consecutively with no gate between them; gate `2*i` is then applied to the
combined two-block output through the `[B*K, N, T]` arrangement (pooling over
the time axis) and its result is discarded; gate `2*i+1` is applied to the
same combined two-block output through the `[B*T, N, K]` arrangement (pooling
over the band axis) and its result is the layer output. -/
theorem claim_C1_amended {α : Type} {N : ℕ} (rt rk : BlockFun α N)
    (g0 g1 : GateFun α N) {B K T : ℕ} (x : T4 α B K T N) :
    dualAxisLayer rt rk g0 g1 x =
      permute12 (gateFold g1 (permute12 (rk B T K (rt B K T x)))) := rfl

/-- Claim C9: if the recurrent transform and the linear projection of an
`RNNModule` are replaced by the zero map, the block output before the final
axis swap equals the input exactly, for every input. -/
theorem claim_C9_residual_identity {N H : ℕ} (bi : Bool) (gw gb : Fin N → ℝ)
    (eps : ℝ) {B K T : ℕ} (x : T4 ℝ B K T N) :
    RNNModule.pre (zeroRNNModule N H bi gw gb eps) x = x :=
  RNNModule.pre_zero bi gw gb eps x

/-- Claim C10: if both projection weight sets of an `SELayer1D` are zero, the
pre-sigmoid gate value is `0`, the gate is `sigmoid 0 = 1/2` for every
channel, and the output is exactly half of the input elementwise. -/
theorem claim_C10_zero_projection_gate {C hid R L : ℕ} (x : T3 ℝ R C L)
    (r : Fin R) (c : Fin C) (l : Fin L) :
    sePre (zeroSELayer C hid) x r c = 0 ∧
    seGate (zeroSELayer C hid) x r c = 1 / 2 ∧
    SELayer1D.forward (zeroSELayer C hid) x r c l = x r c l * (1 / 2) := by
  refine ⟨sePre_zero x r c, seGate_zero x r c, ?_⟩
  rw [SELayer1D.forward, seGate_zero]

/-- Claim C8: the output of `SELayer1D.forward` is the input multiplied
elementwise by a per-channel gate strictly between `0` and `1`; hence each
output entry is `0` where the input entry is `0`, and lies strictly between
the negated absolute value and the absolute value of the input entry where
the input entry is nonzero. -/
theorem claim_C8_gate_boundedness {C : ℕ} (p : SELayer1D C) {R L : ℕ}
    (x : T3 ℝ R C L) (r : Fin R) (c : Fin C) (l : Fin L) :
    SELayer1D.forward p x r c l = x r c l * seGate p x r c ∧
    0 < seGate p x r c ∧ seGate p x r c < 1 ∧
    (x r c l = 0 → SELayer1D.forward p x r c l = 0) ∧
    (x r c l ≠ 0 →
      -|x r c l| < SELayer1D.forward p x r c l ∧
        SELayer1D.forward p x r c l < |x r c l|) := by
  refine ⟨rfl, sigmoid_pos _, sigmoid_lt_one _, ?_, ?_⟩
  · intro h
    show x r c l * seGate p x r c = 0
    rw [h, zero_mul]
  · intro h
    have habs : |SELayer1D.forward p x r c l| < |x r c l| := by
      show |x r c l * seGate p x r c| < |x r c l|
      rw [abs_mul, abs_of_pos (show (0 : ℝ) < seGate p x r c from sigmoid_pos _)]
      calc |x r c l| * seGate p x r c < |x r c l| * 1 :=
            mul_lt_mul_of_pos_left (sigmoid_lt_one _) (abs_pos.mpr h)
      _ = |x r c l| := mul_one _
    exact abs_lt.mp habs

/-- Witness for claim C8 at a concrete nonzero input: the strict bound holds
for the constant-one tensor through the zero-weight gate. -/
theorem claim_C8_witness :
    oneT3 0 0 0 ≠ 0 ∧
    (-|oneT3 0 0 0| < SELayer1D.forward ceSE oneT3 0 0 0 ∧
      SELayer1D.forward ceSE oneT3 0 0 0 < |oneT3 0 0 0|) := by
  have h : oneT3 0 0 0 ≠ 0 := by norm_num [oneT3]
  exact ⟨h, (claim_C8_gate_boundedness ceSE oneT3 0 0 0).2.2.2.2 h⟩

/-- Claim C5: for every rank-4 input with feature width equal to the
configured width and every configuration, the stack forward pass preserves
the shape `[B, K, T, N]` exactly. -/
theorem claim_C5_shape_preservation (N H : ℕ) (bi : Bool) (L B K T : ℕ) :
    bandSequenceShape N H bi L [B, K, T, N] = some [B, K, T, N] := by
  induction L with
  | zero => rfl
  | succ m ih =>
      show (bandLayerShape N H bi [B, K, T, N]).bind
        (iterShape (bandLayerShape N H bi) m) = some [B, K, T, N]
      rw [bandLayerShape_eval]
      exact ih

theorem rnnIterShape_even (N H : ℕ) (bi : Bool) :
    ∀ (m B K T : ℕ),
      iterShape (rnnModuleShape N H bi) (2 * m) [B, K, T, N] = some [B, K, T, N] := by
  intro m
  induction m with
  | zero => intro B K T; rfl
  | succ j ih =>
      intro B K T
      rw [Nat.mul_succ]
      show (rnnModuleShape N H bi [B, K, T, N]).bind
        (iterShape (rnnModuleShape N H bi) (2 * j + 1)) = some [B, K, T, N]
      rw [rnnModuleShape_eval]
      show (rnnModuleShape N H bi [B, T, K, N]).bind
        (iterShape (rnnModuleShape N H bi) (2 * j)) = some [B, K, T, N]
      rw [rnnModuleShape_eval]
      exact ih B K T

theorem rnnIterShape_odd (N H : ℕ) (bi : Bool) (m B K T : ℕ) :
    iterShape (rnnModuleShape N H bi) (2 * m + 1) [B, K, T, N] = some [B, T, K, N] := by
  show (rnnModuleShape N H bi [B, K, T, N]).bind
    (iterShape (rnnModuleShape N H bi) (2 * m)) = some [B, T, K, N]
  rw [rnnModuleShape_eval]
  exact rnnIterShape_even N H bi m B T K

/-- Claim C6: one `RNNModule.forward` call returns the input shape with axes
1 and 2 transposed, with values equal to the residual sum of the original
input and the projected recurrence output; an even number of consecutive
calls restores the original axis order and an odd number leaves axes 1 and 2
swapped. -/
theorem claim_C6_block_transpose_and_residual (N H : ℕ) :
    (∀ (bi : Bool) (B K T : ℕ),
      rnnModuleShape N H bi [B, K, T, N] = some [B, T, K, N]) ∧
    (∀ (p : RNNModule N H) (B K T : ℕ) (x : T4 ℝ B K T N)
        (b : Fin B) (t : Fin T) (k : Fin K) (n : Fin N),
      RNNModule.forward p x b t k n =
        x b k t n + rnnPipeline p (view4to3 x) (fpair b k) t n) ∧
    (∀ (bi : Bool) (m B K T : ℕ),
      iterShape (rnnModuleShape N H bi) (2 * m) [B, K, T, N] = some [B, K, T, N]) ∧
    (∀ (bi : Bool) (m B K T : ℕ),
      iterShape (rnnModuleShape N H bi) (2 * m + 1) [B, K, T, N] = some [B, T, K, N]) := by
  refine ⟨fun bi B K T => rnnModuleShape_eval N H bi B K T, ?_,
    fun bi => rnnIterShape_even N H bi,
    fun bi => rnnIterShape_odd N H bi⟩
  intro p B K T x b t k n
  show rnnPipeline p (view4to3 x) (fpair b k) t n + x b k t n = _
  rw [add_comm]

theorem claim_C7_amended {R C L : ℕ} (w bs : Fin C → ℝ) (eps : ℝ)
    (x : T3 ℝ R C L) (r : Fin R) (c : Fin C) (l : Fin L) :
    groupNorm C w bs eps x r c l =
      w c * ((x r c l - (∑ l' : Fin L, x r c l') / (L : ℝ)) /
        Real.sqrt ((∑ l' : Fin L,
          (x r c l' - (∑ l'' : Fin L, x r c l'') / (L : ℝ)) ^ 2) / (L : ℝ) + eps))
        + bs c := by
  simp [groupNorm, Nat.div_self c.pos, Fin.val_inj]

theorem claim_C7_counterexample :
    groupNorm 1 (fun _ => (1 : ℝ)) (fun _ => (0 : ℝ)) (1 / 100000) gnX 0 0 0 ≠
      groupNormJoint 1 (fun _ => (1 : ℝ)) (fun _ => (0 : ℝ)) (1 / 100000) gnX 0 0 0 := by
  have hL : groupNorm 1 (fun _ => (1 : ℝ)) (fun _ => (0 : ℝ)) (1 / 100000) gnX 0 0 0 = 0 := by
    simp [groupNorm, gnX]
  have hR : groupNormJoint 1 (fun _ => (1 : ℝ)) (fun _ => (0 : ℝ)) (1 / 100000) gnX 0 0 0 < 0 := by
    simp [groupNormJoint, gnX, Fin.sum_univ_two]
    apply div_neg_of_neg_of_pos
    · norm_num
    · exact Real.sqrt_pos.mpr (by positivity)
  rw [hL]
  exact ne_of_gt hR

theorem rnnForwardZeroMaps {N H : ℕ} (bi : Bool) (gw gb : Fin N → ℝ) (eps : ℝ)
    {B K T : ℕ} (x : T4 ℝ B K T N) :
    RNNModule.forward (zeroRNNModule N H bi gw gb eps) x = permute12 x := by
  show permute12 (RNNModule.pre (zeroRNNModule N H bi gw gb eps) x) = permute12 x
  rw [RNNModule.pre_zero]

theorem forward_ceRNN {B K T : ℕ} (z : T4 ℝ B K T 1) :
    RNNModule.forward ceRNN z = permute12 z :=
  rnnForwardZeroMaps true (fun _ => 1) (fun _ => 0) (1 / 100000) z

theorem gateFold_ceSE {A C D : ℕ} (z : T4 ℝ A C D 1) :
    gateFold (fun (R' L' : ℕ) (t : T3 ℝ R' 1 L') => SELayer1D.forward ceSE t) z
      = fun a c d n => z a c d n * (1 / 2) := by
  funext a c d n
  simp [gateFold, ceSE, seForwardZeroWeights, fdiv_fpair, fmod_fpair]

theorem claim_C1_counterexample :
    BandSequenceModelModule.forward (fun _ => ceRNN) (fun _ => ceRNN)
        (fun _ => ceSE) 1 oneT4 0 0 0 0 ≠
      bandSequenceClaimedForward (fun _ => ceRNN) (fun _ => ceRNN)
        (fun _ => ceSE) 1 oneT4 0 0 0 0 := by
  have hcode : BandSequenceModelModule.forward (fun _ => ceRNN) (fun _ => ceRNN)
      (fun _ => ceSE) 1 oneT4 0 0 0 0 = 1 / 2 := by
    simp [BandSequenceModelModule.forward, dualAxisForward, dualAxisGo, dualAxisLayer,
      forward_ceRNN, gateFold_ceSE, permute12, oneT4]
  have hclaim : bandSequenceClaimedForward (fun _ => ceRNN) (fun _ => ceRNN)
      (fun _ => ceSE) 1 oneT4 0 0 0 0 = 1 / 4 := by
    simp [bandSequenceClaimedForward, claimedForward, claimedGo, claimedLayer,
      forward_ceRNN, gateFold_ceSE, permute12, oneT4]
    norm_num
  rw [hcode, hclaim]
  norm_num

theorem buildBsrnn_lstm (N H : ℕ) (bi : Bool) :
    ∀ n, buildBsrnn N H ("LSTM") bi n =
      Except.ok (List.replicate n (lstmCfg N H bi, lstmCfg N H bi)) := by
  intro n
  induction n with
  | zero => rfl
  | succ m ih =>
      show (do
        let a ← rnnModuleInitE N H ("LSTM") bi
        let b ← rnnModuleInitE N H ("LSTM") bi
        let rest ← buildBsrnn N H ("LSTM") bi m
        Except.ok ((a, b) :: rest)) = _
      rw [ih]
      rfl

theorem buildSeLayers_ok (N : ℕ) :
    ∀ n, buildSeLayers N n =
      Except.ok (List.replicate n { channel := N, reduction := 16, hidden := N / 16 }) := by
  intro n
  induction n with
  | zero => rfl
  | succ m ih =>
      show (do
        let s ← seLayerInitE N 16
        let rest ← buildSeLayers N m
        Except.ok (s :: rest)) = _
      rw [ih]
      rfl

theorem claim_C3_counterexample :
    seLayerInitE 24 16 =
      Except.ok { channel := 24, reduction := 16, hidden := 1 } ∧
    exceptOk (bandSequenceInitE 24 32 ("LSTM") true 1) = true := by
  constructor
  · rfl
  · rfl

theorem claim_C3_amended :
    (∀ c r : ℕ, seLayerInitE c r =
      Except.ok { channel := c, reduction := r, hidden := c / r }) ∧
    (∀ (N H layers : ℕ) (bi : Bool),
      exceptOk (bandSequenceInitE N H ("LSTM") bi layers) = true) := by
  constructor
  · intro c r; rfl
  · intro N H layers bi
    show exceptOk (do
      let pairs ← buildBsrnn N H ("LSTM") bi layers
      let ses ← buildSeLayers N (layers * 2)
      pure { bsrnn := pairs, seLayers := ses } : Except InitError BandSequenceCfg) = true
    rw [buildBsrnn_lstm, buildSeLayers_ok]
    rfl

theorem claim_C4_default_construction_fails :
    bandSequenceInitE 128 256 ("lstm") true 12 =
      Except.error (InitError.attributeError ("lstm")) := by
  rfl
